import Mathlib

/-!
Verification of the config-exporter script `config_shell.py`.

The script parses command-line arguments (`-r`/`--repo` required, an
optional positional `config` defaulting to `"config.yml"`), loads a YAML
configuration file into a `Box` (attribute-style access into a nested
mapping, raising a key error on a missing key at access time), and prints
six shell `export` lines to standard output.

The embedding below models:
  - YAML scalar values (`Scalar`): strings and integers, rendered as
    Python `str()` does inside an f-string;
  - the configuration document (`Config`): the two sections accessed by
    the script, each field optional since YAML imposes no schema;
  - `Box` attribute access (`boxGet`): `Except` failing with the missing
    key name;
  - the argparse surface actually declared by `argument_parsing`
    (`-r`/`--repo` taking a value as a separate token, one optional
    positional); anything else looking like an option is rejected, as
    argparse rejects unrecognized options;
  - `load_config`: the filesystem is a partial map from path to file
    content, a file either fails YAML parsing or yields a document;
  - the `__main__` block: six sequential `print` statements, each
    evaluating its f-string (which may raise a key error) before writing,
    so a run stops at the first missing key with the earlier lines
    already written (`emitLines`, `renderRun`, `main_run`);
  - a process-level wrapper `run` over a `World` (filesystem, process
    environment, executed commands, stdout, stderr, exit code) recording
    that the only effect is appending to stdout/stderr and setting the
    exit code.
-/

/-- YAML scalar value as the script can observe it: PyYAML gives Python
strings or ints, and an f-string renders them via `str()`. -/
inductive Scalar where
  | str (s : String)
  | int (n : Int)
deriving DecidableEq, Repr

/-- Python `str()` of a scalar, as interpolated by an f-string: a string
verbatim, an integer via its decimal representation. -/
def Scalar.render : Scalar → String
  | .str s => s
  | .int n => toString n

/-- The `information` section of the configuration document.  Every field
is optional: YAML parsing imposes no schema. -/
structure Information where
  rclone_connection_name : Option Scalar
  client_name : Option Scalar
  bucket_name : Option Scalar
  server_name : Option Scalar
deriving DecidableEq, Repr

/-- The `binaries` section of the configuration document. -/
structure Binaries where
  restic : Option Scalar
deriving DecidableEq, Repr

/-- A parsed configuration document: the two sections the script reads,
each possibly absent. -/
structure Config where
  information : Option Information
  binaries : Option Binaries
deriving DecidableEq, Repr

/-- Box attribute access: `box.key` yields the value when the key is
present and raises `BoxKeyError` naming the key otherwise.  The error
carries the missing key name. -/
def boxGet (key : String) : Option α → Except String α
  | some v => Except.ok v
  | none => Except.error key

/-- Result of parsing `argument_parsing`.  `repo` from `-r`/`--repo`,
`config` from the optional positional (default `"config.yml"`). -/
structure Args where
  repo : String
  config : String
deriving DecidableEq, Repr

/-- Whether a token looks like an option: its first character is a dash.
This is the test argparse applies to classify a token. -/
def optionLike (s : String) : Bool := s.data.head? = some '-'

/-- Scan of the argument vector, mirroring what argparse does for the two
declared arguments: a token equal to `-r` or `--repo` consumes the next
token as the repo value (missing value is an error), any other token
starting with a dash is an unrecognized option (error), and remaining
tokens are collected as positionals (accumulated reversed in `pos`). -/
def scanArgs : List String → Option String → List String → Except String (Option String × List String)
  | [], repo, pos => Except.ok (repo, pos.reverse)
  | a :: rest, repo, pos =>
    if a = "-r" ∨ a = "--repo" then
      match rest with
      | [] => Except.error "argument -r/--repo: expected one argument"
      | v :: rest2 => scanArgs rest2 (some v) pos
    else if optionLike a = true ∧ a ≠ "-" then
      Except.error ("unrecognized arguments: " ++ a)
    else
      scanArgs rest repo (a :: pos)

/-- Parse arguments from the command line, as in `argument_parsing`:
`-r`/`--repo` is required (usage error when absent), and one optional
positional `config` defaults to `"config.yml"`; more than one positional
is rejected, as argparse rejects extra positionals. -/
def argument_parsing (argv : List String) : Except String Args :=
  match scanArgs argv none [] with
  | Except.error m => Except.error m
  | Except.ok (none, _) => Except.error "the following arguments are required: -r/--repo"
  | Except.ok (some r, []) => Except.ok ⟨r, "config.yml"⟩
  | Except.ok (some r, [c]) => Except.ok ⟨r, c⟩
  | Except.ok (some _, _ :: _ :: _) => Except.error "unrecognized arguments"

/-- Content of a file as `load_config` can observe it: either its text is
not valid YAML, or it parses to a configuration document. -/
inductive YamlFile where
  | invalid
  | valid (c : Config)
deriving DecidableEq, Repr

/-- Errors the process can die with. -/
inductive ProgError where
  | usage (msg : String)
  | fileNotFound (path : String)
  | parseError
  | keyError (key : String)
deriving DecidableEq, Repr

/-- Diagnostic text written to the error stream for each error kind. -/
def ProgError.message : ProgError → String
  | .usage m => m
  | .fileNotFound p => "FileNotFoundError: " ++ p
  | .parseError => "yaml parse error"
  | .keyError k => "BoxKeyError: " ++ k

/-- Process exit status for each error kind: argparse exits with 2, an
uncaught Python exception exits with 1. -/
def ProgError.exitStatus : ProgError → Nat
  | .usage _ => 2
  | _ => 1

/-- Model of `load_config`: opens `filename` (file-not-found when the
path is absent from the filesystem), parses it as YAML (parse error when
the content is not valid YAML) and returns the parsed document wrapped in
a `Box`.  No schema validation happens here. -/
def load_config (fs : String → Option YamlFile) (filename : String) : Except ProgError Config :=
  match fs filename with
  | none => Except.error (ProgError.fileNotFound filename)
  | some YamlFile.invalid => Except.error ProgError.parseError
  | some (YamlFile.valid c) => Except.ok c

/-- The f-string of the first print: `export RCLONE_CONNECTION_NAME=...`. -/
def line1 (c : Config) : Except String String := do
  let i ← boxGet "information" c.information
  let v ← boxGet "rclone_connection_name" i.rclone_connection_name
  pure ("export RCLONE_CONNECTION_NAME=" ++ v.render)

/-- The f-string of the second print: `export CLIENT_NAME=...`. -/
def line2 (c : Config) : Except String String := do
  let i ← boxGet "information" c.information
  let v ← boxGet "client_name" i.client_name
  pure ("export CLIENT_NAME=" ++ v.render)

/-- The f-string of the third print: `export BUCKET_NAME=...`. -/
def line3 (c : Config) : Except String String := do
  let i ← boxGet "information" c.information
  let v ← boxGet "bucket_name" i.bucket_name
  pure ("export BUCKET_NAME=" ++ v.render)

/-- The f-string of the fourth print: `export SERVER_NAME=...`. -/
def line4 (c : Config) : Except String String := do
  let i ← boxGet "information" c.information
  let v ← boxGet "server_name" i.server_name
  pure ("export SERVER_NAME=" ++ v.render)

/-- The f-string of the fifth print: `export RESTIC_REPO_NAME=...`; the
repo comes from the command line, so this access cannot fail. -/
def line5 (repo : String) : Except String String :=
  Except.ok ("export RESTIC_REPO_NAME=" ++ repo)

/-- The `restic_cmd` string built at lines 33-37 of the source, with the
accesses in the order the f-string evaluates them: `binaries.restic`,
then `information.rclone_connection_name`, `bucket_name`, `client_name`,
`server_name`, then the repo. -/
def restic_cmd (c : Config) (repo : String) : Except String String := do
  let b ← boxGet "binaries" c.binaries
  let vr ← boxGet "restic" b.restic
  let i ← boxGet "information" c.information
  let vconn ← boxGet "rclone_connection_name" i.rclone_connection_name
  let vbucket ← boxGet "bucket_name" i.bucket_name
  let vclient ← boxGet "client_name" i.client_name
  let vserver ← boxGet "server_name" i.server_name
  pure (vr.render ++ " " ++ "-r rclone:" ++ vconn.render ++ ":" ++ vbucket.render ++ "/"
    ++ vclient.render ++ "/" ++ vserver.render ++ "/" ++ repo)

/-- The f-string of the sixth print: `export RESTIC_CMD="..."`, the only
line whose value is wrapped in double quotes. -/
def line6 (c : Config) (repo : String) : Except String String := do
  let cmd ← restic_cmd c repo
  pure ("export RESTIC_CMD=\"" ++ cmd ++ "\"")

/-- Sequential execution of the print statements: each statement first
evaluates its f-string; on success the line is written and execution
continues, on a key error execution stops with the lines already written
and the missing key. -/
def emitLines : List (Except String String) → List String × Option String
  | [] => ([], none)
  | Except.error e :: _ => ([], some e)
  | Except.ok s :: rest =>
    let r := emitLines rest
    (s :: r.1, r.2)

/-- The six prints of the `__main__` block, run in source order on a
loaded configuration and the repo name: the lines written to stdout and,
when a key was missing, the key the run died on. -/
def renderRun (c : Config) (repo : String) : List String × Option String :=
  emitLines [line1 c, line2 c, line3 c, line4 c, line5 repo, line6 c repo]

/-- The whole `__main__` block as a function of the filesystem and the
argument vector: parse arguments, load the configuration, render the
exports.  Returns the stdout lines and the error the process died with,
if any. -/
def main_run (fs : String → Option YamlFile) (argv : List String) : List String × Option ProgError :=
  match argument_parsing argv with
  | Except.error m => ([], some (ProgError.usage m))
  | Except.ok args =>
    match load_config fs args.config with
    | Except.error e => ([], some e)
    | Except.ok c =>
      let r := renderRun c args.repo
      (r.1, r.2.map ProgError.keyError)

/-- Observable process state: the filesystem, the environment of the
calling process, the commands the process has executed, and the streams
and exit status of the run. -/
structure World where
  fs : String → Option YamlFile
  env : String → Option String
  executed : List String
  stdout : List String
  stderr : List String
  exitCode : Nat

/-- One process run over a world: stdout gets the emitted lines, stderr
gets the diagnostic on failure, the exit code records success or the
error kind.  Nothing else in the world is touched. -/
def run (w : World) (argv : List String) : World :=
  match main_run w.fs argv with
  | (out, none) => { w with stdout := w.stdout ++ out, exitCode := 0 }
  | (out, some e) =>
    { w with stdout := w.stdout ++ out
           , stderr := w.stderr ++ [e.message]
           , exitCode := e.exitStatus }

/-- A well-formed configuration: all four information fields and
`binaries.restic` present, with the given scalar values. -/
def mkConfig (v1 v2 v3 v4 vb : Scalar) : Config :=
  ⟨some ⟨some v1, some v2, some v3, some v4⟩, some ⟨some vb⟩⟩

/-- The well-formed example document of the specification. -/
def cfgEx : Config :=
  mkConfig (.str "r1") (.str "c1") (.str "b1") (.str "s1") (.str "/usr/bin/restic")

/-- A world whose filesystem is empty: every path is missing. -/
def w0 : World := ⟨fun _ => none, fun _ => none, [], [], [], 0⟩

/-- A filesystem with no file at any path. -/
def fsNone : String → Option YamlFile := fun _ => none

/-- A filesystem whose `config.yml` is not valid YAML. -/
def fsBad : String → Option YamlFile :=
  fun p => if p = "config.yml" then some YamlFile.invalid else none

/-- A filesystem whose `config.yml` parses to the example document. -/
def fsGood : String → Option YamlFile :=
  fun p => if p = "config.yml" then some (YamlFile.valid cfgEx) else none

/-- A filesystem differing from `fsNone` only at a path the program does
not read on the default invocation. -/
def fsOther : String → Option YamlFile :=
  fun p => if p = "other.yml" then some YamlFile.invalid else none

/-- The double-quote character, the only quoting the output ever uses. -/
def dquote : Char := '\"'

/-- Evaluation of the render step on a fully populated document, with the
string concatenations grouped as the source builds them. -/
theorem renderRun_mkConfig (v1 v2 v3 v4 vb : Scalar) (R : String) :
    renderRun (mkConfig v1 v2 v3 v4 vb) R =
      (["export RCLONE_CONNECTION_NAME=" ++ v1.render,
        "export CLIENT_NAME=" ++ v2.render,
        "export BUCKET_NAME=" ++ v3.render,
        "export SERVER_NAME=" ++ v4.render,
        "export RESTIC_REPO_NAME=" ++ R,
        "export RESTIC_CMD=\"" ++ (vb.render ++ " " ++ "-r rclone:" ++ v1.render ++ ":"
          ++ v3.render ++ "/" ++ v2.render ++ "/" ++ v4.render ++ "/" ++ R) ++ "\""], none) := rfl

/-- C1: for every well-formed configuration document (all four
information fields and binaries.restic present) and every repository-name
string R, the render step writes exactly six lines to standard output, in
the fixed order RCLONE_CONNECTION_NAME, CLIENT_NAME, BUCKET_NAME,
SERVER_NAME, RESTIC_REPO_NAME, RESTIC_CMD, each line beginning with
"export ", and line 5 equals "export RESTIC_REPO_NAME=" followed by R. -/
theorem wellformed_six_export_lines (c : Config) (v1 v2 v3 v4 vb : Scalar) (R : String)
    (hc : c = mkConfig v1 v2 v3 v4 vb) :
    renderRun c R =
      (["export RCLONE_CONNECTION_NAME=" ++ v1.render,
        "export CLIENT_NAME=" ++ v2.render,
        "export BUCKET_NAME=" ++ v3.render,
        "export SERVER_NAME=" ++ v4.render,
        "export RESTIC_REPO_NAME=" ++ R,
        "export RESTIC_CMD=\"" ++ vb.render ++ " -r rclone:" ++ v1.render ++ ":" ++ v3.render
          ++ "/" ++ v2.render ++ "/" ++ v4.render ++ "/" ++ R ++ "\""], none) ∧
    (renderRun c R).1.length = 6 ∧
    (∀ l ∈ (renderRun c R).1, ∃ t, l = "export " ++ t) ∧
    (renderRun c R).1[4]? = some ("export RESTIC_REPO_NAME=" ++ R) := by
  subst hc
  rw [renderRun_mkConfig]
  refine ⟨by simp [String.append_assoc], rfl, ?_, rfl⟩
  intro l hl
  simp only [List.mem_cons, List.not_mem_nil, or_false] at hl
  rcases hl with rfl | rfl | rfl | rfl | rfl | rfl
  · exact ⟨"RCLONE_CONNECTION_NAME=" ++ v1.render, rfl⟩
  · exact ⟨"CLIENT_NAME=" ++ v2.render, rfl⟩
  · exact ⟨"BUCKET_NAME=" ++ v3.render, rfl⟩
  · exact ⟨"SERVER_NAME=" ++ v4.render, rfl⟩
  · exact ⟨"RESTIC_REPO_NAME=" ++ R, rfl⟩
  · exact ⟨"RESTIC_CMD=\"" ++ (vb.render ++ " " ++ "-r rclone:" ++ v1.render ++ ":"
      ++ v3.render ++ "/" ++ v2.render ++ "/" ++ v4.render ++ "/" ++ R) ++ "\"", rfl⟩

/-- Witness for C1 at a concrete configuration and repository name. -/
theorem wellformed_six_export_lines_witness :
    (renderRun (mkConfig (.str "r1") (.str "c1") (.str "b1") (.str "s1")
        (.str "/usr/bin/restic")) "myrepo").1.length = 6 ∧
    (renderRun (mkConfig (.str "r1") (.str "c1") (.str "b1") (.str "s1")
        (.str "/usr/bin/restic")) "myrepo").1[4]? = some "export RESTIC_REPO_NAME=myrepo" := by
  have h := wellformed_six_export_lines _ (.str "r1") (.str "c1") (.str "b1") (.str "s1")
    (.str "/usr/bin/restic") "myrepo" rfl
  exact ⟨h.2.1, by rw [h.2.2.2]; rfl⟩

/-- C2: for every well-formed configuration document and repository name,
the restic command string interpolates, in this exact order, the restic
binary path, the literal " -r rclone:", the rclone connection name, ":",
the bucket name, "/", the client name, "/", the server name, "/", the
repository name; on line 6 this value is wrapped in double quotes, while
the values on lines 1 to 5 are unquoted. -/
theorem restic_cmd_interpolation (c : Config) (v1 v2 v3 v4 vb : Scalar) (R : String)
    (hc : c = mkConfig v1 v2 v3 v4 vb) :
    restic_cmd c R = Except.ok (vb.render ++ " -r rclone:" ++ v1.render ++ ":" ++ v3.render
      ++ "/" ++ v2.render ++ "/" ++ v4.render ++ "/" ++ R) ∧
    (renderRun c R).1[5]? = some ("export RESTIC_CMD=\"" ++ (vb.render ++ " -r rclone:"
      ++ v1.render ++ ":" ++ v3.render ++ "/" ++ v2.render ++ "/" ++ v4.render ++ "/" ++ R)
      ++ "\"") ∧
    (renderRun c R).1[0]? = some ("export RCLONE_CONNECTION_NAME=" ++ v1.render) ∧
    (renderRun c R).1[1]? = some ("export CLIENT_NAME=" ++ v2.render) ∧
    (renderRun c R).1[2]? = some ("export BUCKET_NAME=" ++ v3.render) ∧
    (renderRun c R).1[3]? = some ("export SERVER_NAME=" ++ v4.render) ∧
    (renderRun c R).1[4]? = some ("export RESTIC_REPO_NAME=" ++ R) := by
  subst hc
  rw [renderRun_mkConfig]
  refine ⟨?_, ?_, rfl, rfl, rfl, rfl, rfl⟩
  · show Except.ok ((vb.render ++ " " ++ "-r rclone:" ++ v1.render ++ ":" ++ v3.render
      ++ "/" ++ v2.render ++ "/" ++ v4.render ++ "/" ++ R : String)) = _
    simp [String.append_assoc]
  · simp [String.append_assoc]

/-- Witness for C2: the concrete example from the specification, with
line 6 equal to the exact literal string it requires. -/
theorem restic_cmd_interpolation_witness :
    restic_cmd (mkConfig (.str "r1") (.str "c1") (.str "b1") (.str "s1")
      (.str "/usr/bin/restic")) "myrepo" =
      Except.ok "/usr/bin/restic -r rclone:r1:b1/c1/s1/myrepo" ∧
    (renderRun (mkConfig (.str "r1") (.str "c1") (.str "b1") (.str "s1")
      (.str "/usr/bin/restic")) "myrepo").1[5]? =
      some "export RESTIC_CMD=\"/usr/bin/restic -r rclone:r1:b1/c1/s1/myrepo\"" := by
  have h := restic_cmd_interpolation _ (.str "r1") (.str "c1") (.str "b1") (.str "s1")
    (.str "/usr/bin/restic") "myrepo" rfl
  exact ⟨by rw [h.1]; rfl, by rw [h.2.1]; rfl⟩

/-- Helper: one unfolding step of the scan on a nonempty argument vector. -/
theorem scanArgs_cons (a : String) (rest : List String) (repo : Option String)
    (pos : List String) :
    scanArgs (a :: rest) repo pos =
      if a = "-r" ∨ a = "--repo" then
        match rest with
        | [] => Except.error "argument -r/--repo: expected one argument"
        | v :: rest2 => scanArgs rest2 (some v) pos
      else if optionLike a = true ∧ a ≠ "-" then
        Except.error ("unrecognized arguments: " ++ a)
      else
        scanArgs rest repo (a :: pos) := by
  rw [scanArgs.eq_def]

/-- Helper: a scan that never sees a `-r` or `--repo` token keeps the
repo value it started with; started from `none`, it either errors or
reports no repo. -/
theorem scanArgs_no_option (l : List String) (pos : List String)
    (h : ∀ a ∈ l, a ≠ "-r" ∧ a ≠ "--repo") :
    (∃ m, scanArgs l none pos = Except.error m) ∨
    ∃ p, scanArgs l none pos = Except.ok (none, p) := by
  induction l generalizing pos with
  | nil => exact Or.inr ⟨pos.reverse, rfl⟩
  | cons a rest ih =>
    obtain ⟨ha1, ha2⟩ := h a (List.mem_cons_self a rest)
    have hcond : ¬(a = "-r" ∨ a = "--repo") := by
      rintro (rfl | rfl)
      · exact ha1 rfl
      · exact ha2 rfl
    by_cases hd : optionLike a = true ∧ a ≠ "-"
    · exact Or.inl ⟨"unrecognized arguments: " ++ a,
        by rw [scanArgs_cons, if_neg hcond, if_pos hd]⟩
    · rcases ih (a :: pos) (fun b hb => h b (List.mem_cons_of_mem a hb)) with ⟨m, hm⟩ | ⟨p, hp⟩
      · exact Or.inl ⟨m, by rw [scanArgs_cons, if_neg hcond, if_neg hd]; exact hm⟩
      · exact Or.inr ⟨p, by rw [scanArgs_cons, if_neg hcond, if_neg hd]; exact hp⟩

/-- Helper: an argument vector with no `-r` or `--repo` token makes
`argument_parsing` fail. -/
theorem argument_parsing_no_repo (argv : List String)
    (h : ∀ a ∈ argv, a ≠ "-r" ∧ a ≠ "--repo") :
    ∃ m, argument_parsing argv = Except.error m := by
  rcases scanArgs_no_option argv [] h with ⟨m, hm⟩ | ⟨p, hp⟩
  · exact ⟨m, by simp [argument_parsing, hm]⟩
  · exact ⟨"the following arguments are required: -r/--repo",
      by simp [argument_parsing, hp]⟩

/-- C3: every invocation whose argument vector does not contain `-r` or
`--repo` fails with a usage error: the exit status is non-zero, a
diagnostic is appended to the error stream, and no export line is written
to standard output. -/
theorem missing_repo_is_usage_error (w : World) (argv : List String)
    (h : ∀ a ∈ argv, a ≠ "-r" ∧ a ≠ "--repo") :
    (run w argv).stdout = w.stdout ∧
    (run w argv).exitCode ≠ 0 ∧
    (∃ m, (run w argv).stderr = w.stderr ++ [m]) ∧
    (∃ m, (main_run w.fs argv) = ([], some (ProgError.usage m))) := by
  obtain ⟨m, hm⟩ := argument_parsing_no_repo argv h
  have hmain : main_run w.fs argv = ([], some (ProgError.usage m)) := by
    simp [main_run, hm]
  refine ⟨?_, ?_, ⟨(ProgError.usage m).message, ?_⟩, ⟨m, hmain⟩⟩ <;>
    simp [run, hmain, ProgError.exitStatus]

/-- Witness for C3: a concrete invocation without `-r`/`--repo`. -/
theorem missing_repo_is_usage_error_witness :
    (run w0 ["myconf.yml"]).stdout = w0.stdout ∧
    (run w0 ["myconf.yml"]).exitCode ≠ 0 ∧
    (∃ m, (run w0 ["myconf.yml"]).stderr = w0.stderr ++ [m]) ∧
    (∃ m, (main_run w0.fs ["myconf.yml"]) = ([], some (ProgError.usage m))) :=
  missing_repo_is_usage_error w0 ["myconf.yml"] (by decide)

/-- Helper: parsing `["-r", r, path]` for a positional that does not look
like an option yields the repo and that positional as the config path. -/
theorem argument_parsing_with_positional (r path : String)
    (hp : optionLike path = false) :
    argument_parsing ["-r", r, path] = Except.ok ⟨r, path⟩ := by
  have h1 : ¬(path = "-r" ∨ path = "--repo") := by
    rintro (rfl | rfl) <;> exact absurd hp (by decide)
  have h2 : ¬(optionLike path = true ∧ path ≠ "-") := by
    rintro ⟨hs, _⟩; rw [hp] at hs; exact Bool.false_ne_true hs
  have hstep : scanArgs ["-r", r, path] none [] = scanArgs [path] (some r) [] := rfl
  have hscan : scanArgs ["-r", r, path] none [] = Except.ok (some r, [path]) := by
    rw [hstep, scanArgs_cons, if_neg h1, if_neg h2]
    rfl
  simp [argument_parsing, hscan]

/-- C6: argument parsing accepts `-r`/`--repo` with a value and a single
optional positional `config`; whenever the scan of the argument vector
finds a repo value and no positional, the configuration path used is
exactly the string `config.yml`, and a supplied positional becomes the
configuration path. -/
theorem argument_parsing_default_config (argv : List String) (r c : String)
    (hpos : scanArgs argv none [] = Except.ok (some r, []))
    (hc : optionLike c = false) :
    argument_parsing argv = Except.ok ⟨r, "config.yml"⟩ ∧
    argument_parsing ["-r", r] = Except.ok ⟨r, "config.yml"⟩ ∧
    argument_parsing ["--repo", r] = Except.ok ⟨r, "config.yml"⟩ ∧
    argument_parsing ["-r", r, c] = Except.ok ⟨r, c⟩ := by
  refine ⟨by simp [argument_parsing, hpos], rfl, rfl,
    argument_parsing_with_positional r c hc⟩

/-- Witness for C6 at a concrete argument vector and positional. -/
theorem argument_parsing_default_config_witness :
    argument_parsing ["--repo", "abc"] = Except.ok ⟨"abc", "config.yml"⟩ ∧
    argument_parsing ["-r", "abc"] = Except.ok ⟨"abc", "config.yml"⟩ ∧
    argument_parsing ["--repo", "abc"] = Except.ok ⟨"abc", "config.yml"⟩ ∧
    argument_parsing ["-r", "abc", "myconf.yml"] = Except.ok ⟨"abc", "myconf.yml"⟩ :=
  argument_parsing_default_config ["--repo", "abc"] "abc" "myconf.yml" rfl (by decide)

/-- C4: load configuration fails with a file-not-found error when the
path does not exist (and the program then exits non-zero with no stdout
lines), fails with a parse error when the content is not valid YAML, and
on success returns the parsed document. -/
theorem load_config_error_cases (fs : String → Option YamlFile) (path r : String)
    (hp : optionLike path = false) :
    (fs path = none →
      load_config fs path = Except.error (ProgError.fileNotFound path) ∧
      main_run fs ["-r", r, path] = ([], some (ProgError.fileNotFound path)) ∧
      (ProgError.fileNotFound path).exitStatus ≠ 0) ∧
    (fs path = some YamlFile.invalid →
      load_config fs path = Except.error ProgError.parseError ∧
      main_run fs ["-r", r, path] = ([], some ProgError.parseError)) ∧
    (∀ c, fs path = some (YamlFile.valid c) → load_config fs path = Except.ok c) := by
  have hargs := argument_parsing_with_positional r path hp
  refine ⟨fun h => ⟨?_, ?_, by simp [ProgError.exitStatus]⟩, fun h => ⟨?_, ?_⟩, fun c h => ?_⟩
  · simp [load_config, h]
  · simp [main_run, hargs, load_config, h]
  · simp [load_config, h]
  · simp [main_run, hargs, load_config, h]
  · simp [load_config, h]

/-- Witness for C4: the three outcomes at concrete filesystems. -/
theorem load_config_error_cases_witness :
    load_config fsNone "config.yml" = Except.error (ProgError.fileNotFound "config.yml") ∧
    load_config fsBad "config.yml" = Except.error ProgError.parseError ∧
    load_config fsGood "config.yml" = Except.ok cfgEx :=
  ⟨((load_config_error_cases fsNone "config.yml" "x" (by decide)).1 rfl).1,
   ((load_config_error_cases fsBad "config.yml" "x" (by decide)).2.1 rfl).1,
   (load_config_error_cases fsGood "config.yml" "x" (by decide)).2.2 cfgEx rfl⟩

/-- C5: loading performs no schema validation: any document that parses
is returned whole even with required fields absent, and a missing nested
key (here `information.client_name`) only fails with a key-lookup error
at the moment the rendering accesses it, after the earlier lines were
already produced. -/
theorem no_schema_validation (fs : String → Option YamlFile) (path : String) (c : Config)
    (v : Scalar) (o3 o4 : Option Scalar) (ob : Option Binaries) (repo : String)
    (hload : fs path = some (YamlFile.valid c)) :
    load_config fs path = Except.ok c ∧
    load_config (fun _ => some (YamlFile.valid
        (Config.mk (some (Information.mk (some v) none o3 o4)) ob))) path =
      Except.ok (Config.mk (some (Information.mk (some v) none o3 o4)) ob) ∧
    renderRun (Config.mk (some (Information.mk (some v) none o3 o4)) ob) repo =
      (["export RCLONE_CONNECTION_NAME=" ++ v.render], some "client_name") :=
  ⟨by simp [load_config, hload], rfl, rfl⟩

/-- Witness for C5: a document missing `client_name` loads fine and only
fails while rendering line 2. -/
theorem no_schema_validation_witness :
    load_config fsGood "config.yml" = Except.ok cfgEx ∧
    renderRun (Config.mk (some (Information.mk (some (Scalar.str "r1")) none none none)) none)
        "rp" =
      (["export RCLONE_CONNECTION_NAME=" ++ (Scalar.str "r1").render], some "client_name") := by
  have h := no_schema_validation fsGood "config.yml" cfgEx (Scalar.str "r1") none none none
    "rp" rfl
  exact ⟨h.1, h.2.2⟩

/-- C7: the only effect of a run is on standard output, the error stream
and the exit status: the filesystem, the process environment and the list
of executed commands are unchanged, and the streams only ever get lines
appended (in particular no file is written and the assembled restic
command is never executed). -/
theorem run_frame (w : World) (argv : List String) :
    (run w argv).fs = w.fs ∧
    (run w argv).env = w.env ∧
    (run w argv).executed = w.executed ∧
    (∃ out, (run w argv).stdout = w.stdout ++ out) ∧
    (∃ err, (run w argv).stderr = w.stderr ++ err) := by
  rcases h : main_run w.fs argv with ⟨out, err⟩
  cases err with
  | none =>
    exact ⟨by simp [run, h], by simp [run, h], by simp [run, h],
      ⟨out, by simp [run, h]⟩, ⟨[], by simp [run, h]⟩⟩
  | some e =>
    exact ⟨by simp [run, h], by simp [run, h], by simp [run, h],
      ⟨out, by simp [run, h]⟩, ⟨[e.message], by simp [run, h]⟩⟩

/-- C8: the program is deterministic and reads nothing but the named
configuration file: two runs with the same argument vector whose
filesystems agree on the configuration path the invocation resolves to
produce identical stdout lines, identical diagnostics and the same exit
status. -/
theorem deterministic_runs (fs1 fs2 : String → Option YamlFile) (argv : List String)
    (h : ∀ a, argument_parsing argv = Except.ok a → fs1 a.config = fs2 a.config) :
    main_run fs1 argv = main_run fs2 argv ∧
    ∀ env ex so se ec,
      (run ⟨fs1, env, ex, so, se, ec⟩ argv).stdout = (run ⟨fs2, env, ex, so, se, ec⟩ argv).stdout ∧
      (run ⟨fs1, env, ex, so, se, ec⟩ argv).stderr = (run ⟨fs2, env, ex, so, se, ec⟩ argv).stderr ∧
      (run ⟨fs1, env, ex, so, se, ec⟩ argv).exitCode = (run ⟨fs2, env, ex, so, se, ec⟩ argv).exitCode := by
  have hmain : main_run fs1 argv = main_run fs2 argv := by
    cases hp : argument_parsing argv with
    | error m => simp [main_run, hp]
    | ok a =>
      have hfs := h a hp
      simp [main_run, hp, load_config, hfs]
  refine ⟨hmain, fun env ex so se ec => ?_⟩
  rcases h1 : main_run fs1 argv with ⟨out, err⟩
  have h2 : main_run fs2 argv = (out, err) := hmain ▸ h1
  cases err <;> simp [run, h1, h2]

/-- Witness for C8: two filesystems that differ away from the
configuration path still give identical runs. -/
theorem deterministic_runs_witness :
    main_run fsNone ["-r", "x"] = main_run fsOther ["-r", "x"] := by
  have h := deterministic_runs fsNone fsOther ["-r", "x"] ?_
  · exact h.1
  · intro a ha
    have ha2 : Except.ok (Args.mk "x" "config.yml") = Except.ok a := ha
    injection ha2 with hv
    rw [← hv]
    rfl

/-- C9: when the four information fields are present but binaries.restic
is absent (the binaries section missing entirely, or present without a
restic key), the run writes the first five export lines to standard
output and only then dies with a key-lookup error and a non-zero exit: a
failing run leaves partial export output on stdout. -/
theorem partial_output_missing_restic (c : Config) (v1 v2 v3 v4 : Scalar)
    (ob : Option Binaries) (repo : String)
    (hc : c = Config.mk (some (Information.mk (some v1) (some v2) (some v3) (some v4))) ob)
    (hb : ob = none ∨ ob = some (Binaries.mk none)) :
    ∃ k, renderRun c repo =
        (["export RCLONE_CONNECTION_NAME=" ++ v1.render,
          "export CLIENT_NAME=" ++ v2.render,
          "export BUCKET_NAME=" ++ v3.render,
          "export SERVER_NAME=" ++ v4.render,
          "export RESTIC_REPO_NAME=" ++ repo], some k) ∧
      (ProgError.keyError k).exitStatus ≠ 0 ∧
      ∀ fs, fs "config.yml" = some (YamlFile.valid c) →
        main_run fs ["-r", repo] =
          (["export RCLONE_CONNECTION_NAME=" ++ v1.render,
            "export CLIENT_NAME=" ++ v2.render,
            "export BUCKET_NAME=" ++ v3.render,
            "export SERVER_NAME=" ++ v4.render,
            "export RESTIC_REPO_NAME=" ++ repo], some (ProgError.keyError k)) := by
  subst hc
  have hargs : argument_parsing ["-r", repo] = Except.ok ⟨repo, "config.yml"⟩ := rfl
  rcases hb with rfl | rfl
  · refine ⟨"binaries", rfl, by simp [ProgError.exitStatus], fun fs hfs => ?_⟩
    have hr : renderRun
        (Config.mk (some (Information.mk (some v1) (some v2) (some v3) (some v4))) none) repo =
        (["export RCLONE_CONNECTION_NAME=" ++ v1.render,
          "export CLIENT_NAME=" ++ v2.render,
          "export BUCKET_NAME=" ++ v3.render,
          "export SERVER_NAME=" ++ v4.render,
          "export RESTIC_REPO_NAME=" ++ repo], some "binaries") := rfl
    simp [main_run, hargs, load_config, hfs, hr]
  · refine ⟨"restic", rfl, by simp [ProgError.exitStatus], fun fs hfs => ?_⟩
    have hr : renderRun
        (Config.mk (some (Information.mk (some v1) (some v2) (some v3) (some v4)))
          (some (Binaries.mk none))) repo =
        (["export RCLONE_CONNECTION_NAME=" ++ v1.render,
          "export CLIENT_NAME=" ++ v2.render,
          "export BUCKET_NAME=" ++ v3.render,
          "export SERVER_NAME=" ++ v4.render,
          "export RESTIC_REPO_NAME=" ++ repo], some "restic") := rfl
    simp [main_run, hargs, load_config, hfs, hr]

/-- Witness for C9: a concrete document with no binaries section. -/
theorem partial_output_missing_restic_witness :
    ∃ k, renderRun
        (Config.mk (some (Information.mk (some (Scalar.str "r1")) (some (Scalar.str "c1"))
          (some (Scalar.str "b1")) (some (Scalar.str "s1")))) none) "rp" =
        (["export RCLONE_CONNECTION_NAME=" ++ (Scalar.str "r1").render,
          "export CLIENT_NAME=" ++ (Scalar.str "c1").render,
          "export BUCKET_NAME=" ++ (Scalar.str "b1").render,
          "export SERVER_NAME=" ++ (Scalar.str "s1").render,
          "export RESTIC_REPO_NAME=" ++ "rp"], some k) ∧
      (ProgError.keyError k).exitStatus ≠ 0 ∧
      ∀ fs, fs "config.yml" = some (YamlFile.valid
          (Config.mk (some (Information.mk (some (Scalar.str "r1")) (some (Scalar.str "c1"))
            (some (Scalar.str "b1")) (some (Scalar.str "s1")))) none)) →
        main_run fs ["-r", "rp"] =
          (["export RCLONE_CONNECTION_NAME=" ++ (Scalar.str "r1").render,
            "export CLIENT_NAME=" ++ (Scalar.str "c1").render,
            "export BUCKET_NAME=" ++ (Scalar.str "b1").render,
            "export SERVER_NAME=" ++ (Scalar.str "s1").render,
            "export RESTIC_REPO_NAME=" ++ "rp"], some (ProgError.keyError k)) :=
  partial_output_missing_restic _ (Scalar.str "r1") (Scalar.str "c1") (Scalar.str "b1")
    (Scalar.str "s1") none "rp" rfl (Or.inl rfl)

/-- C10: values are interpolated verbatim with no escaping, quoting or
type checking: with string-valued fields every output line is the literal
concatenation of its prefix and the raw field text (so whitespace and
shell metacharacters pass through unmodified), an integer scalar is
accepted and rendered via its decimal text, and line 6 carries exactly
two double quotes plus every double quote contributed verbatim by the
values, so a double quote in any field breaks the quoting of line 6. -/
theorem verbatim_interpolation (v1 v2 v3 v4 vb repo : String) (n : Int) :
    renderRun (mkConfig (.str v1) (.str v2) (.str v3) (.str v4) (.str vb)) repo =
      (["export RCLONE_CONNECTION_NAME=" ++ v1,
        "export CLIENT_NAME=" ++ v2,
        "export BUCKET_NAME=" ++ v3,
        "export SERVER_NAME=" ++ v4,
        "export RESTIC_REPO_NAME=" ++ repo,
        "export RESTIC_CMD=\"" ++ vb ++ " -r rclone:" ++ v1 ++ ":" ++ v3 ++ "/" ++ v2
          ++ "/" ++ v4 ++ "/" ++ repo ++ "\""], none) ∧
    (renderRun (mkConfig (.str v1) (.int n) (.str v3) (.str v4) (.str vb)) repo).2 = none ∧
    (renderRun (mkConfig (.str v1) (.int n) (.str v3) (.str v4) (.str vb)) repo).1[1]? =
      some ("export CLIENT_NAME=" ++ toString n) ∧
    ("export RESTIC_CMD=\"" ++ vb ++ " -r rclone:" ++ v1 ++ ":" ++ v3 ++ "/" ++ v2
        ++ "/" ++ v4 ++ "/" ++ repo ++ "\"").data.count dquote =
      2 + (vb.data.count dquote + v1.data.count dquote + v3.data.count dquote
        + v2.data.count dquote + v4.data.count dquote + repo.data.count dquote) ∧
    (0 < v4.data.count dquote →
      ("export RESTIC_CMD=\"" ++ vb ++ " -r rclone:" ++ v1 ++ ":" ++ v3 ++ "/" ++ v2
        ++ "/" ++ v4 ++ "/" ++ repo ++ "\"").data.count dquote ≠ 2) := by
  have hcount : ("export RESTIC_CMD=\"" ++ vb ++ " -r rclone:" ++ v1 ++ ":" ++ v3 ++ "/" ++ v2
      ++ "/" ++ v4 ++ "/" ++ repo ++ "\"").data.count dquote =
      2 + (vb.data.count dquote + v1.data.count dquote + v3.data.count dquote
        + v2.data.count dquote + v4.data.count dquote + repo.data.count dquote) := by
    simp only [String.data_append, List.count_append]
    have e1 : ("export RESTIC_CMD=\"").data.count dquote = 1 := by decide
    have e2 : (" -r rclone:").data.count dquote = 0 := by decide
    have e3 : (":").data.count dquote = 0 := by decide
    have e4 : ("/").data.count dquote = 0 := by decide
    have e5 : ("\"").data.count dquote = 1 := by decide
    rw [e1, e2, e3, e4, e5]
    omega
  refine ⟨?_, ?_, ?_, hcount, fun hq => ?_⟩
  · rw [renderRun_mkConfig]
    simp [Scalar.render, String.append_assoc]
  · rw [renderRun_mkConfig]
  · rw [renderRun_mkConfig]
    rfl
  · rw [hcount]
    omega

/-- Witness for C10: a server name containing a double quote yields a
line 6 with three double quotes, and an integer client id is emitted via
its decimal text. -/
theorem verbatim_interpolation_witness :
    (renderRun (mkConfig (.str "r1") (.int 42) (.str "b1") (.str "s\"x") (.str "rx")) "rp").2
      = none ∧
    (renderRun (mkConfig (.str "r1") (.int 42) (.str "b1") (.str "s\"x") (.str "rx"))
      "rp").1[1]? = some ("export CLIENT_NAME=" ++ toString (42 : Int)) ∧
    ("export RESTIC_CMD=\"" ++ "rx" ++ " -r rclone:" ++ "r1" ++ ":" ++ "b1" ++ "/" ++ "c1"
      ++ "/" ++ "s\"x" ++ "/" ++ "rp" ++ "\"").data.count dquote ≠ 2 := by
  have h := verbatim_interpolation "r1" "c1" "b1" "s\"x" "rx" "rp" 42
  exact ⟨h.2.1, h.2.2.1, h.2.2.2.2 (by decide)⟩
